import Mathlib

/-!
# Verification of the DNS message codec and reply synthesis

Shallow embedding of the DNS server's codec (`src/dns_header.rs`,
`src/dns_question.rs`, `src/dns_answer.rs`, `src/dns_type.rs`,
`src/dns_class.rs`) and of the per-datagram reply logic of `src/main.rs`.

Bytes are modelled as `Nat` values (< 256 where it matters); byte buffers
and sequential readers as `List Nat`.  Rust's fallible conversions
(`TryFrom`, `read_exact`, `String::from_utf8`) become `Except DnsError`.
-/

namespace DnsServer

/-- Error kinds of the Rust decode paths: `read_exact` EOF, a failed
`String::from_utf8`, the `anyhow::bail!` branches of `QType::try_from`,
`QClass::try_from` and `DnsHeader::try_from`. -/
inductive DnsError where
  | unexpectedEof
  | invalidUtf8
  | invalidQType
  | invalidQClass
  | malformedHeader
deriving DecidableEq, Repr

instance {ε α : Type} [DecidableEq ε] [DecidableEq α] : DecidableEq (Except ε α) :=
  fun x y =>
    match x, y with
    | .ok a, .ok b =>
      if h : a = b then isTrue (by rw [h]) else isFalse (fun he => by cases he; exact h rfl)
    | .error a, .error b =>
      if h : a = b then isTrue (by rw [h]) else isFalse (fun he => by cases he; exact h rfl)
    | .ok _, .error _ => isFalse (fun he => by cases he)
    | .error _, .ok _ => isFalse (fun he => by cases he)

/-- Whether a byte is a UTF-8 continuation byte (`0x80..0xBF`). -/
def isCont (c : Nat) : Bool := 0x80 ≤ c && c ≤ 0xBF

/-- UTF-8 validity of a byte sequence, as checked by Rust's
`String::from_utf8` (RFC 3629: rejects overlong forms, surrogates and
code points above U+10FFFF). -/
def validUtf8 : List Nat → Bool
  | [] => true
  | b :: rest =>
    if b ≤ 0x7F then validUtf8 rest
    else if 0xC2 ≤ b && b ≤ 0xDF then
      match rest with
      | c1 :: r => isCont c1 && validUtf8 r
      | [] => false
    else if b = 0xE0 then
      match rest with
      | c1 :: c2 :: r => (0xA0 ≤ c1 && c1 ≤ 0xBF) && isCont c2 && validUtf8 r
      | _ => false
    else if (0xE1 ≤ b && b ≤ 0xEC) || b = 0xEE || b = 0xEF then
      match rest with
      | c1 :: c2 :: r => isCont c1 && isCont c2 && validUtf8 r
      | _ => false
    else if b = 0xED then
      match rest with
      | c1 :: c2 :: r => (0x80 ≤ c1 && c1 ≤ 0x9F) && isCont c2 && validUtf8 r
      | _ => false
    else if b = 0xF0 then
      match rest with
      | c1 :: c2 :: c3 :: r =>
          (0x90 ≤ c1 && c1 ≤ 0xBF) && isCont c2 && isCont c3 && validUtf8 r
      | _ => false
    else if 0xF1 ≤ b && b ≤ 0xF3 then
      match rest with
      | c1 :: c2 :: c3 :: r => isCont c1 && isCont c2 && isCont c3 && validUtf8 r
      | _ => false
    else if b = 0xF4 then
      match rest with
      | c1 :: c2 :: c3 :: r =>
          (0x80 ≤ c1 && c1 ≤ 0x8F) && isCont c2 && isCont c3 && validUtf8 r
      | _ => false
    else false

/-- `Read::read_exact` into an `n`-byte buffer from a sequential reader:
yields the `n` bytes and the remaining stream, or `UnexpectedEof` when
fewer than `n` bytes remain. -/
def readExact (n : Nat) (s : List Nat) : Except DnsError (List Nat × List Nat) :=
  if n ≤ s.length then .ok (s.take n, s.drop n) else .error .unexpectedEof

/-- `u16::from_be_bytes([b0, b1])`. -/
def fromBe2 (b0 b1 : Nat) : Nat := b0 * 256 + b1

/-- Big-endian bytes of a `u16`: `x.to_be_bytes()` is
`[(x >> 8) as u8, x as u8]`. -/
def u16ToBeBytes (x : Nat) : List Nat := [x / 256 % 256, x % 256]

/-- `OpCode` of `src/dns_header.rs` (4-bit opcode; 3..=15 are `Reserved`). -/
inductive OpCode where
  | Query
  | Iquery
  | Status
  | Reserved
deriving DecidableEq, Repr

/-- `RCode` of `src/dns_header.rs` (4-bit response code; 6..=15 `Reserved`). -/
inductive RCode where
  | NoError
  | FormatError
  | ServerFailure
  | NameError
  | NotImplemented
  | Refused
  | Reserved
deriving DecidableEq, Repr

/-- The numeric opcode match of `From<u8> for DnsHeaderThirdByte`
(`0 => Query, 1 => Iquery, 2 => Status, 3..=15 => Reserved`); the Rust
`unreachable!()` arm for values above 15 cannot fire because the input is
a masked 4-bit value, so values above 15 also land in `Reserved` here. -/
def opCodeOfVal (v : Nat) : OpCode :=
  if v = 0 then .Query
  else if v = 1 then .Iquery
  else if v = 2 then .Status
  else .Reserved

/-- The opcode encoding match of `From<DnsHeaderThirdByte> for u8`. -/
def opCodeToU8 : OpCode → Nat
  | .Query => 0
  | .Iquery => 1
  | .Status => 2
  | .Reserved => 3

/-- The numeric rcode match of `From<u8> for DnsHeaderFourthByte`
(`0..=5` named, `6..=15 => Reserved`); as for `opCodeOfVal`, the
`unreachable!()` arm is modelled by `Reserved`. -/
def rCodeOfVal (v : Nat) : RCode :=
  if v = 0 then .NoError
  else if v = 1 then .FormatError
  else if v = 2 then .ServerFailure
  else if v = 3 then .NameError
  else if v = 4 then .NotImplemented
  else if v = 5 then .Refused
  else .Reserved

/-- The rcode encoding match of `From<DnsHeaderFourthByte> for u8`. -/
def rCodeToU8 : RCode → Nat
  | .NoError => 0
  | .FormatError => 1
  | .ServerFailure => 2
  | .NameError => 3
  | .NotImplemented => 4
  | .Refused => 5
  | .Reserved => 6

/-- `DnsHeaderThirdByte` of `src/dns_header.rs`. -/
structure DnsHeaderThirdByte where
  query_response_ind : Bool
  operation_code : OpCode
  authoritative_answer : Bool
  truncation : Bool
  recursion_desired : Bool
deriving DecidableEq, Repr

/-- `DnsHeaderFourthByte` of `src/dns_header.rs`; `reserved` is a `u8`
field holding a 3-bit value. -/
structure DnsHeaderFourthByte where
  recursion_available : Bool
  reserved : Nat
  response_code : RCode
deriving DecidableEq, Repr

/-- `From<u8> for DnsHeaderThirdByte`: bit 7 QR, bits 6-3 opcode,
bit 2 AA, bit 1 TC, bit 0 RD. -/
def dnsHeaderThirdByteFromU8 (value : Nat) : DnsHeaderThirdByte :=
  { query_response_ind := value >>> 7 == 1
    operation_code := opCodeOfVal ((value &&& 0x78) >>> 3)
    authoritative_answer := (value &&& 0x4) >>> 2 == 1
    truncation := (value &&& 0x2) >>> 1 == 1
    recursion_desired := value &&& 1 == 1 }

/-- `From<DnsHeaderThirdByte> for u8`: the sum
`qr·2⁷ + opcode·2³ + aa·2² + tc·2 + rd` (at most 159, so the Rust `u8`
additions cannot overflow). -/
def dnsHeaderThirdByteToU8 (x : DnsHeaderThirdByte) : Nat :=
  (if x.query_response_ind then 128 else 0) +
    opCodeToU8 x.operation_code * 8 +
    (if x.authoritative_answer then 4 else 0) +
    (if x.truncation then 2 else 0) +
    (if x.recursion_desired then 1 else 0)

/-- `From<u8> for DnsHeaderFourthByte`: bit 7 RA, bits 6-4 Z, bits 3-0
RCODE. -/
def dnsHeaderFourthByteFromU8 (value : Nat) : DnsHeaderFourthByte :=
  { recursion_available := value >>> 7 == 1
    reserved := (value &&& 0x70) >>> 4
    response_code := rCodeOfVal (value &&& 0xF) }

/-- `From<DnsHeaderFourthByte> for u8` as the mathematical sum
`ra·2⁷ + reserved·2⁴ + rcode`; the Rust `u8` additions are exact iff this
sum fits a byte, which holds whenever `reserved < 8` (proved below). -/
def dnsHeaderFourthByteToU8 (x : DnsHeaderFourthByte) : Nat :=
  (if x.recursion_available then 128 else 0) +
    x.reserved * 16 +
    rCodeToU8 x.response_code

/-- `DnsHeader` of `src/dns_header.rs`; the `u16` fields are `Nat`s
bounded by `2^16` where a claim needs the bound. -/
structure DnsHeader where
  packet_id : Nat
  third_byte : DnsHeaderThirdByte
  fourth_byte : DnsHeaderFourthByte
  question_count : Nat
  answer_record_count : Nat
  authority_record_count : Nat
  additional_record_count : Nat
deriving DecidableEq, Repr

/-- `TryFrom<&[u8]> for DnsHeader`: fails unless the slice is exactly 12
bytes, then reads id, the two flag bytes, and the four big-endian counts. -/
def dnsHeaderTryFrom (s : List Nat) : Except DnsError DnsHeader :=
  if s.length = 12 then
    .ok { packet_id := fromBe2 (s.getD 0 0) (s.getD 1 0)
          third_byte := dnsHeaderThirdByteFromU8 (s.getD 2 0)
          fourth_byte := dnsHeaderFourthByteFromU8 (s.getD 3 0)
          question_count := fromBe2 (s.getD 4 0) (s.getD 5 0)
          answer_record_count := fromBe2 (s.getD 6 0) (s.getD 7 0)
          authority_record_count := fromBe2 (s.getD 8 0) (s.getD 9 0)
          additional_record_count := fromBe2 (s.getD 10 0) (s.getD 11 0) }
  else .error .malformedHeader

/-- `From<DnsHeader> for [u8; 12]`: id, flag bytes, counts, big-endian. -/
def dnsHeaderToBytes (h : DnsHeader) : List Nat :=
  u16ToBeBytes h.packet_id ++
    [dnsHeaderThirdByteToU8 h.third_byte] ++
    [dnsHeaderFourthByteToU8 h.fourth_byte] ++
    u16ToBeBytes h.question_count ++
    u16ToBeBytes h.answer_record_count ++
    u16ToBeBytes h.authority_record_count ++
    u16ToBeBytes h.additional_record_count

/-- `DnsLabel`: one length-prefixed domain-name component.  The Rust
field `label : String` is modelled as its UTF-8 byte sequence (decode
only constructs it from bytes that pass `validUtf8`, mirroring
`String::from_utf8`). -/
structure DnsLabel where
  length : Nat
  label : List Nat
deriving DecidableEq, Repr

/-- `QType` of `src/dns_type.rs` / `src/dns_question.rs`. -/
inductive QType where
  | A
  | Ns
  | Md
  | Mf
  | Cname
  | Soa
  | Mb
  | Mg
  | Mr
  | Null
  | Wks
  | Ptr
  | Hinfo
  | Minfo
  | Mx
  | Txt
  | Axfr
  | Mailb
  | Maila
  | StarSign
deriving DecidableEq, Repr

/-- `TryFrom<u16> for QType`: the fixed value table; anything else is
the `anyhow::bail!("Invalid QType")` branch. -/
def qTypeTryFrom (value : Nat) : Except DnsError QType :=
  if value = 1 then .ok .A
  else if value = 2 then .ok .Ns
  else if value = 3 then .ok .Md
  else if value = 4 then .ok .Mf
  else if value = 5 then .ok .Cname
  else if value = 6 then .ok .Soa
  else if value = 7 then .ok .Mb
  else if value = 8 then .ok .Mg
  else if value = 9 then .ok .Mr
  else if value = 10 then .ok .Null
  else if value = 11 then .ok .Wks
  else if value = 12 then .ok .Ptr
  else if value = 13 then .ok .Hinfo
  else if value = 14 then .ok .Minfo
  else if value = 15 then .ok .Mx
  else if value = 16 then .ok .Txt
  else if value = 252 then .ok .Axfr
  else if value = 253 then .ok .Mailb
  else if value = 254 then .ok .Maila
  else if value = 255 then .ok .StarSign
  else .error .invalidQType

/-- `From<QType> for u16`. -/
def qTypeToU16 : QType → Nat
  | .A => 1
  | .Ns => 2
  | .Md => 3
  | .Mf => 4
  | .Cname => 5
  | .Soa => 6
  | .Mb => 7
  | .Mg => 8
  | .Mr => 9
  | .Null => 10
  | .Wks => 11
  | .Ptr => 12
  | .Hinfo => 13
  | .Minfo => 14
  | .Mx => 15
  | .Txt => 16
  | .Axfr => 252
  | .Mailb => 253
  | .Maila => 254
  | .StarSign => 255

/-- `QClass` of `src/dns_class.rs` / `src/dns_question.rs`. -/
inductive QClass where
  | In
  | Cs
  | Ch
  | Hs
  | StarSign
deriving DecidableEq, Repr

/-- `TryFrom<u16> for QClass`: the fixed value table; anything else is
the `anyhow::bail!("Invalid QClass")` branch. -/
def qClassTryFrom (value : Nat) : Except DnsError QClass :=
  if value = 1 then .ok .In
  else if value = 2 then .ok .Cs
  else if value = 3 then .ok .Ch
  else if value = 4 then .ok .Hs
  else if value = 255 then .ok .StarSign
  else .error .invalidQClass

/-- `From<QClass> for u16`. -/
def qClassToU16 : QClass → Nat
  | .In => 1
  | .Cs => 2
  | .Ch => 3
  | .Hs => 4
  | .StarSign => 255

/-- The label-reading loop shared by `DnsQuestion::try_from`
(`src/dns_question.rs`) and `DnsAnswer::try_from` (`src/dns_answer.rs`):
read one length byte; `0` terminates the name; otherwise read exactly
`length` bytes as the label's text, require it to be valid UTF-8, and
continue.  Any nonzero length byte — including one whose top two bits
are `11` — is treated as a plain label length; there is no compression
pointer branch in the source.  The `fuel` argument makes the recursion
structural; every call through `parseLabels` supplies enough fuel for the
loop (each iteration consumes at least one byte), so the fuel-exhausted
arm is unreachable there (`parseLabelsAux_fuel_irrelevant`). -/
def parseLabelsAux : Nat → List Nat → Except DnsError (List DnsLabel × List Nat)
  | _, [] => .error .unexpectedEof
  | 0, _ :: _ => .error .unexpectedEof
  | fuel + 1, len :: rest =>
    if len = 0 then .ok ([], rest)
    else if len ≤ rest.length then
      if validUtf8 (rest.take len) then
        match parseLabelsAux fuel (rest.drop len) with
        | .ok (labels, s2) => .ok ({ length := len, label := rest.take len } :: labels, s2)
        | .error e => .error e
      else .error .invalidUtf8
    else .error .unexpectedEof

/-- Name decoding from a sequential reader (the loop of
`DnsQuestion::try_from` lines 17-29 / `DnsAnswer::try_from` lines 31-43). -/
def parseLabels (s : List Nat) : Except DnsError (List DnsLabel × List Nat) :=
  parseLabelsAux s.length s

/-- `DnsQuestion` of `src/dns_question.rs`. -/
structure DnsQuestion where
  q_name : List DnsLabel
  q_type : QType
  q_class : QClass
deriving DecidableEq, Repr

/-- `TryFrom<&mut dyn BufRead> for DnsQuestion`: name loop, then 2-byte
qtype and 2-byte qclass through the value tables. -/
def parseQuestion (s : List Nat) : Except DnsError (DnsQuestion × List Nat) := do
  let (q_name, s1) ← parseLabels s
  let (tb, s2) ← readExact 2 s1
  let q_type ← qTypeTryFrom (fromBe2 (tb.getD 0 0) (tb.getD 1 0))
  let (cb, s3) ← readExact 2 s2
  let q_class ← qClassTryFrom (fromBe2 (cb.getD 0 0) (cb.getD 1 0))
  .ok ({ q_name, q_type, q_class }, s3)

/-- The name-and-field encoding of `From<DnsQuestion> for Vec<u8>`
restricted to the name part: for each label push its `length` byte then
its text bytes, finally push the terminating `0`. -/
def encodeLabels : List DnsLabel → List Nat
  | [] => [0]
  | l :: ls => (l.length :: l.label) ++ encodeLabels ls

/-- `From<DnsQuestion> for Vec<u8>`: encoded name, then big-endian qtype
and qclass. -/
def encodeQuestion (q : DnsQuestion) : List Nat :=
  encodeLabels q.q_name ++ u16ToBeBytes (qTypeToU16 q.q_type) ++
    u16ToBeBytes (qClassToU16 q.q_class)

/-- `DnsAnswer` of `src/dns_answer.rs`. -/
structure DnsAnswer where
  r_name : List DnsLabel
  r_type : QType
  r_class : QClass
  ttl : Nat
  rd_length : Nat
  r_data : List Nat
deriving DecidableEq, Repr

/-- `From<DnsQuestion> for DnsAnswer`: copy name/type/class, zero the
rest. -/
def dnsAnswerFromQuestion (q : DnsQuestion) : DnsAnswer :=
  { r_name := q.q_name
    r_type := q.q_type
    r_class := q.q_class
    ttl := 0
    rd_length := 0
    r_data := [] }

/-- The per-question body of the loop in `src/main.rs` lines 76-89: the
decoded question's `q_type`/`q_class` are overwritten with `A`/`In`,
then the answer is built from the modified question and its
`ttl`/`rd_length`/`r_data` are set to the hardcoded placeholders. -/
def processQuestion (q : DnsQuestion) : DnsQuestion × DnsAnswer :=
  let q2 : DnsQuestion := { q with q_type := QType.A, q_class := QClass.In }
  let a := dnsAnswerFromQuestion q2
  (q2, { a with ttl := 60, rd_length := 4, r_data := [45, 87, 98, 65] })

/-- The header mutations of `src/main.rs` lines 50-69: force the reply
flags, derive the response code from the request's opcode, copy
`question_count` into `answer_record_count` and zero the
authority/additional counts. -/
def replyHeader (h : DnsHeader) : DnsHeader :=
  { h with
    third_byte := { h.third_byte with
      query_response_ind := true
      authoritative_answer := false
      truncation := false }
    fourth_byte :=
      { recursion_available := false
        reserved := 0
        response_code :=
          match h.third_byte.operation_code with
          | .Query => RCode.NoError
          | _ => RCode.NotImplemented }
    answer_record_count := h.question_count
    authority_record_count := 0
    additional_record_count := 0 }

/-- The whole per-datagram synthesis of `src/main.rs` lines 46-97 on
already-decoded questions: the reply header plus, per question, the
modified echoed question and its placeholder answer. -/
def synthesizeReply (h : DnsHeader) (qs : List DnsQuestion) :
    DnsHeader × List DnsQuestion × List DnsAnswer :=
  (replyHeader h,
   qs.map (fun q => (processQuestion q).1),
   qs.map (fun q => (processQuestion q).2))

/-- The question-reading loop of `src/main.rs` lines 76-78: decode
`n` questions in order from the reader. -/
def parseQuestionsN : Nat → List Nat → Except DnsError (List DnsQuestion × List Nat)
  | 0, s => .ok ([], s)
  | n + 1, s => do
    let (q, s1) ← parseQuestion s
    let (qs, s2) ← parseQuestionsN n s1
    .ok (q :: qs, s2)

/-- The request-reading path of `src/main.rs` lines 39-47 and 66/76-78:
take 12 bytes for the header, decode it, then decode `question_count`
questions from the rest of the buffer. -/
def decodeRequest (buf : List Nat) :
    Except DnsError (DnsHeader × List DnsQuestion × List Nat) := do
  let (hb, r1) ← readExact 12 buf
  let h ← dnsHeaderTryFrom hb
  let (qs, r2) ← parseQuestionsN h.question_count r1
  .ok (h, qs, r2)

/-! ## Helper lemmas -/

/-- A reader with no bytes left fails the first `read_exact`, whatever
the fuel. -/
theorem parseLabelsAux_nil (f : Nat) : parseLabelsAux f [] = .error .unexpectedEof := by
  cases f <;> rfl

/-- The fuel argument of `parseLabelsAux` is irrelevant as soon as it
covers the input length: each loop iteration consumes at least one byte. -/
theorem parseLabelsAux_fuel_irrelevant :
    ∀ (f1 f2 : Nat) (s : List Nat), s.length ≤ f1 → s.length ≤ f2 →
      parseLabelsAux f1 s = parseLabelsAux f2 s := by
  intro f1
  induction f1 with
  | zero =>
    intro f2 s h1 h2
    have : s = [] := List.eq_nil_of_length_eq_zero (Nat.le_zero.mp h1)
    subst this
    rw [parseLabelsAux_nil, parseLabelsAux_nil]
  | succ g ih =>
    intro f2 s h1 h2
    cases s with
    | nil => rw [parseLabelsAux_nil, parseLabelsAux_nil]
    | cons len rest =>
      cases f2 with
      | zero => simp at h2
      | succ k =>
        simp only [List.length_cons, Nat.succ_le_succ_iff] at h1 h2
        have hdrop : (rest.drop len).length ≤ rest.length := by
          rw [List.length_drop]; omega
        have hrec : parseLabelsAux g (rest.drop len) = parseLabelsAux k (rest.drop len) :=
          ih k (rest.drop len) (Nat.le_trans hdrop h1) (Nat.le_trans hdrop h2)
        simp only [parseLabelsAux]
        rw [hrec]

/-- `u16::from_be_bytes` undoes `u16::to_be_bytes` on 16-bit values. -/
theorem fromBe2_split (x : Nat) (h : x < 65536) :
    fromBe2 (x / 256 % 256) (x % 256) = x := by
  unfold fromBe2; omega

/-- Unpacking the packed third byte restores every field (the packed sum
is at most 159, so nothing is lost). -/
theorem thirdByte_roundtrip (x : DnsHeaderThirdByte) :
    dnsHeaderThirdByteFromU8 (dnsHeaderThirdByteToU8 x) = x := by
  obtain ⟨qr, op, aa, tc, rd⟩ := x
  cases qr <;> cases op <;> cases aa <;> cases tc <;> cases rd <;> decide

/-- With a 3-bit `reserved` the packed fourth byte fits in a byte. -/
theorem fourthByteToU8_le (x : DnsHeaderFourthByte) (h : x.reserved < 8) :
    dnsHeaderFourthByteToU8 x ≤ 255 := by
  obtain ⟨ra, r, rc⟩ := x
  simp only at h
  cases ra <;> cases rc <;> simp [dnsHeaderFourthByteToU8, rCodeToU8] <;> omega

/-- With a 3-bit `reserved`, unpacking the packed fourth byte restores
every field. -/
theorem fourthByte_roundtrip (x : DnsHeaderFourthByte) (h : x.reserved < 8) :
    dnsHeaderFourthByteFromU8 (dnsHeaderFourthByteToU8 x) = x := by
  obtain ⟨ra, r, rc⟩ := x
  simp only at h
  cases ra <;> cases rc <;> revert h <;> revert r <;> decide

/-- `DnsHeader::try_from` on an explicit 12-byte slice. -/
theorem dnsHeaderTryFrom_explicit (b0 b1 b2 b3 b4 b5 b6 b7 b8 b9 b10 b11 : Nat) :
    dnsHeaderTryFrom [b0, b1, b2, b3, b4, b5, b6, b7, b8, b9, b10, b11] =
      .ok { packet_id := fromBe2 b0 b1
            third_byte := dnsHeaderThirdByteFromU8 b2
            fourth_byte := dnsHeaderFourthByteFromU8 b3
            question_count := fromBe2 b4 b5
            answer_record_count := fromBe2 b6 b7
            authority_record_count := fromBe2 b8 b9
            additional_record_count := fromBe2 b10 b11 } := rfl

/-- The encoder emits exactly twelve bytes in wire order. -/
theorem dnsHeaderToBytes_explicit (h : DnsHeader) :
    dnsHeaderToBytes h =
      [h.packet_id / 256 % 256, h.packet_id % 256,
       dnsHeaderThirdByteToU8 h.third_byte,
       dnsHeaderFourthByteToU8 h.fourth_byte,
       h.question_count / 256 % 256, h.question_count % 256,
       h.answer_record_count / 256 % 256, h.answer_record_count % 256,
       h.authority_record_count / 256 % 256, h.authority_record_count % 256,
       h.additional_record_count / 256 % 256, h.additional_record_count % 256] := rfl

/-- Decode after encode restores a well-formed header exactly. -/
theorem header_roundtrip (h : DnsHeader) (hid : h.packet_id < 65536)
    (hqd : h.question_count < 65536) (han : h.answer_record_count < 65536)
    (hns : h.authority_record_count < 65536) (har : h.additional_record_count < 65536)
    (hz : h.fourth_byte.reserved < 8) :
    dnsHeaderTryFrom (dnsHeaderToBytes h) = .ok h := by
  obtain ⟨id, tb, fb, qd, an, ns, ar⟩ := h
  simp only at hid hqd han hns har hz
  rw [dnsHeaderToBytes_explicit, dnsHeaderTryFrom_explicit]
  simp only [Except.ok.injEq, DnsHeader.mk.injEq]
  exact ⟨fromBe2_split id hid, thirdByte_roundtrip tb, fourthByte_roundtrip fb hz,
    fromBe2_split _ hqd, fromBe2_split _ han, fromBe2_split _ hns, fromBe2_split _ har⟩

/-! ## Claims -/

/-- C3: decoding the 12 header bytes
`[0x0B,0x0D,0x0C,0xA2,0x03,0xAA,0x00,0x1B,0x0D,0x07,0xFF,0xFF]` yields
id `0x0B0D`, QR clear, opcode `Iquery`, AA set, TC clear, RD clear, RA
set, Z `2`, rcode `ServerFailure`, and counts `0x03AA`, `0x1B`,
`0x0D07`, `0xFFFF`; re-encoding yields the identical 12 bytes. -/
theorem c3_header_decode_concrete :
    dnsHeaderTryFrom [0x0B, 0x0D, 0x0C, 0xA2, 0x03, 0xAA, 0x00, 0x1B, 0x0D, 0x07, 0xFF, 0xFF] =
      .ok { packet_id := 0x0B0D
            third_byte :=
              { query_response_ind := false
                operation_code := .Iquery
                authoritative_answer := true
                truncation := false
                recursion_desired := false }
            fourth_byte :=
              { recursion_available := true
                reserved := 2
                response_code := .ServerFailure }
            question_count := 0x03AA
            answer_record_count := 0x1B
            authority_record_count := 0x0D07
            additional_record_count := 0xFFFF } ∧
    dnsHeaderToBytes
      { packet_id := 0x0B0D
        third_byte :=
          { query_response_ind := false
            operation_code := .Iquery
            authoritative_answer := true
            truncation := false
            recursion_desired := false }
        fourth_byte :=
          { recursion_available := true
            reserved := 2
            response_code := .ServerFailure }
        question_count := 0x03AA
        answer_record_count := 0x1B
        authority_record_count := 0x0D07
        additional_record_count := 0xFFFF } =
      [0x0B, 0x0D, 0x0C, 0xA2, 0x03, 0xAA, 0x00, 0x1B, 0x0D, 0x07, 0xFF, 0xFF] := by
  decide

/-- C4: for every header whose fields are in range (`u16` counts, 3-bit
`reservedZ`), decoding the encoded bytes reconstructs the header
exactly; the `Reserved` opcode encodes as the canonical `3` and the
`Reserved` rcode as the canonical `6`, while every numeric opcode in
`3..=15` and rcode in `6..=15` decodes to the `Reserved` variant — so
round-trip equality holds up to exactly this folding. -/
theorem c4_header_roundtrip_folding :
    (∀ h : DnsHeader, h.packet_id < 65536 → h.question_count < 65536 →
        h.answer_record_count < 65536 → h.authority_record_count < 65536 →
        h.additional_record_count < 65536 → h.fourth_byte.reserved < 8 →
        dnsHeaderTryFrom (dnsHeaderToBytes h) = .ok h) ∧
    opCodeToU8 .Reserved = 3 ∧ rCodeToU8 .Reserved = 6 ∧
    (∀ v : Nat, 3 ≤ v → v ≤ 15 → opCodeOfVal v = .Reserved) ∧
    (∀ v : Nat, 6 ≤ v → v ≤ 15 → rCodeOfVal v = .Reserved) := by
  refine ⟨header_roundtrip, rfl, rfl, ?_, ?_⟩
  · intro v h3 h15
    unfold opCodeOfVal
    rw [if_neg (by omega), if_neg (by omega), if_neg (by omega)]
  · intro v h6 h15
    unfold rCodeOfVal
    rw [if_neg (by omega), if_neg (by omega), if_neg (by omega),
      if_neg (by omega), if_neg (by omega), if_neg (by omega)]

/-- Witness for C4 at a concrete header with `reservedZ = 5` and a
`Reserved` opcode, plus folded numeric values. -/
theorem c4_witness :
    dnsHeaderTryFrom (dnsHeaderToBytes
      { packet_id := 0xABCD
        third_byte :=
          { query_response_ind := true
            operation_code := .Reserved
            authoritative_answer := false
            truncation := true
            recursion_desired := true }
        fourth_byte :=
          { recursion_available := true
            reserved := 5
            response_code := .Reserved }
        question_count := 7
        answer_record_count := 65535
        authority_record_count := 0
        additional_record_count := 300 }) =
      .ok { packet_id := 0xABCD
            third_byte :=
              { query_response_ind := true
                operation_code := .Reserved
                authoritative_answer := false
                truncation := true
                recursion_desired := true }
            fourth_byte :=
              { recursion_available := true
                reserved := 5
                response_code := .Reserved }
            question_count := 7
            answer_record_count := 65535
            authority_record_count := 0
            additional_record_count := 300 } ∧
    opCodeOfVal 9 = .Reserved ∧ rCodeOfVal 15 = .Reserved :=
  ⟨c4_header_roundtrip_folding.1 _ (by decide) (by decide) (by decide) (by decide)
      (by decide) (by decide),
   c4_header_roundtrip_folding.2.2.2.1 9 (by decide) (by decide),
   c4_header_roundtrip_folding.2.2.2.2 15 (by decide) (by decide)⟩

/-- C5: the synthesized reply header copies the request header, forces
QR set, AA/TC/RA clear and Z `0`, sets the rcode to `NoError` for opcode
`Query` and `NotImplemented` otherwise, copies `questionCount` into
`answerCount`, zeroes the authority/additional counts, and leaves id,
opcode, RD and `questionCount` unchanged. -/
theorem c5_reply_header_fields (h : DnsHeader) :
    replyHeader h =
      { packet_id := h.packet_id
        third_byte :=
          { query_response_ind := true
            operation_code := h.third_byte.operation_code
            authoritative_answer := false
            truncation := false
            recursion_desired := h.third_byte.recursion_desired }
        fourth_byte :=
          { recursion_available := false
            reserved := 0
            response_code :=
              if h.third_byte.operation_code = .Query then .NoError
              else .NotImplemented }
        question_count := h.question_count
        answer_record_count := h.question_count
        authority_record_count := 0
        additional_record_count := 0 } := by
  obtain ⟨id, ⟨qr, op, aa, tc, rd⟩, fb, qd, an, ns, ar⟩ := h
  cases op <;> rfl

/-- Witness for C5 at a concrete `Status`-opcode request header. -/
theorem c5_witness :
    replyHeader ⟨9, ⟨false, OpCode.Status, true, true, true⟩, ⟨true, 3, RCode.Refused⟩, 2, 0, 5, 6⟩ =
      { packet_id := 9
        third_byte :=
          { query_response_ind := true
            operation_code := OpCode.Status
            authoritative_answer := false
            truncation := false
            recursion_desired := true }
        fourth_byte :=
          { recursion_available := false
            reserved := 0
            response_code :=
              if OpCode.Status = OpCode.Query then RCode.NoError
              else RCode.NotImplemented }
        question_count := 2
        answer_record_count := 2
        authority_record_count := 0
        additional_record_count := 0 } :=
  c5_reply_header_fields
    ⟨9, ⟨false, OpCode.Status, true, true, true⟩, ⟨true, 3, RCode.Refused⟩, 2, 0, 5, 6⟩

/-- C9: header decoding fails with the malformed-header error exactly
when the input is not 12 bytes, and succeeds on every 12-byte input. -/
theorem c9_header_length_check :
    (∀ s : List Nat, s.length ≠ 12 → dnsHeaderTryFrom s = .error .malformedHeader) ∧
    (∀ s : List Nat, s.length = 12 → ∃ h, dnsHeaderTryFrom s = .ok h) := by
  constructor
  · intro s hs
    unfold dnsHeaderTryFrom
    rw [if_neg hs]
  · intro s hs
    unfold dnsHeaderTryFrom
    rw [if_pos hs]
    exact ⟨_, rfl⟩

/-- Witness for C9: a 2-byte input is rejected, an all-`0xFF` 12-byte
input is accepted. -/
theorem c9_witness :
    dnsHeaderTryFrom [1, 2] = .error .malformedHeader ∧
    ∃ h, dnsHeaderTryFrom (List.replicate 12 0xFF) = .ok h :=
  ⟨c9_header_length_check.1 [1, 2] (by decide),
   c9_header_length_check.2 (List.replicate 12 0xFF) (by decide)⟩

/-- C10: packing the fourth byte is overflow-free under the 3-bit
precondition — for `reserved < 8` the sum
`128·ra + 16·reserved + rcode` is at most 255 and unpacking restores all
three fields — while some value with `reserved ≥ 8` and RA set makes the
sum exceed 255. -/
theorem c10_fourth_byte_no_overflow :
    (∀ x : DnsHeaderFourthByte, x.reserved < 8 →
        dnsHeaderFourthByteToU8 x ≤ 255 ∧
        dnsHeaderFourthByteFromU8 (dnsHeaderFourthByteToU8 x) = x) ∧
    (∃ x : DnsHeaderFourthByte, 8 ≤ x.reserved ∧ x.recursion_available = true ∧
        255 < dnsHeaderFourthByteToU8 x) := by
  constructor
  · intro x hx
    exact ⟨fourthByteToU8_le x hx, fourthByte_roundtrip x hx⟩
  · exact ⟨⟨true, 8, .NoError⟩, by decide, rfl, by decide⟩

/-- Witness for C10 at `ra = true, reserved = 7, rcode = Refused`. -/
theorem c10_witness :
    dnsHeaderFourthByteToU8 ⟨true, 7, .Refused⟩ ≤ 255 ∧
    dnsHeaderFourthByteFromU8 (dnsHeaderFourthByteToU8 ⟨true, 7, .Refused⟩) =
      ⟨true, 7, .Refused⟩ :=
  c10_fourth_byte_no_overflow.1 ⟨true, 7, .Refused⟩ (by decide)

/-- Decoding an encoded well-formed name consumes exactly its bytes and
reconstructs its labels, for any sufficient fuel. -/
theorem parseLabelsAux_encode (name : List DnsLabel) :
    ∀ (rest : List Nat) (fuel : Nat),
      (∀ l ∈ name, l.length = l.label.length ∧ 1 ≤ l.length ∧ l.length ≤ 63 ∧
        validUtf8 l.label = true) →
      (encodeLabels name ++ rest).length ≤ fuel →
      parseLabelsAux fuel (encodeLabels name ++ rest) = .ok (name, rest) := by
  induction name with
  | nil =>
    intro rest fuel _ hf
    cases fuel with
    | zero => simp [encodeLabels] at hf
    | succ f => simp [encodeLabels, parseLabelsAux]
  | cons l ls ih =>
    intro rest fuel hvalid hf
    obtain ⟨hlen, h1, _h63, hutf⟩ := hvalid l (by simp)
    have hshape : encodeLabels (l :: ls) ++ rest =
        l.length :: (l.label ++ (encodeLabels ls ++ rest)) := by
      simp [encodeLabels]
    cases fuel with
    | zero =>
      rw [hshape] at hf
      simp at hf
    | succ f =>
      have hne : l.length ≠ 0 := by omega
      have htake : (l.label ++ (encodeLabels ls ++ rest)).take l.length = l.label := by
        rw [hlen]; exact List.take_left _ _
      have hdrop : (l.label ++ (encodeLabels ls ++ rest)).drop l.length =
          encodeLabels ls ++ rest := by
        rw [hlen]; exact List.drop_left _ _
      have hle : l.length ≤ (l.label ++ (encodeLabels ls ++ rest)).length := by
        rw [List.length_append, hlen]; omega
      have hfuel : (encodeLabels ls ++ rest).length ≤ f := by
        rw [hshape] at hf
        simp only [List.length_cons, List.length_append] at hf ⊢
        omega
      rw [hshape]
      simp only [parseLabelsAux]
      rw [if_neg hne, if_pos hle, htake, if_pos hutf, hdrop,
        ih rest f (fun l hl => hvalid l (by simp [hl])) hfuel]

/-- C6: for every name whose labels have matching length fields
(`1..=63`) and valid UTF-8 text, decoding the encoded byte sequence
(length-prefixed labels plus the terminating zero byte) reconstructs the
name exactly and consumes the whole sequence. -/
theorem c6_name_roundtrip (name : List DnsLabel)
    (hv : ∀ l ∈ name, l.length = l.label.length ∧ 1 ≤ l.length ∧ l.length ≤ 63 ∧
      validUtf8 l.label = true) :
    parseLabels (encodeLabels name) = .ok (name, []) := by
  have h := parseLabelsAux_encode name [] (encodeLabels name ++ []).length hv (Nat.le_refl _)
  simpa [parseLabels] using h

/-- Witness for C6 on the two-label name `abc.de`. -/
theorem c6_witness :
    (∀ l ∈ ([⟨3, [97, 98, 99]⟩, ⟨2, [100, 101]⟩] : List DnsLabel),
      l.length = l.label.length ∧ 1 ≤ l.length ∧ l.length ≤ 63 ∧
        validUtf8 l.label = true) ∧
    parseLabels (encodeLabels [⟨3, [97, 98, 99]⟩, ⟨2, [100, 101]⟩]) =
      .ok ([⟨3, [97, 98, 99]⟩, ⟨2, [100, 101]⟩], []) :=
  ⟨by decide, c6_name_roundtrip _ (by decide)⟩

/-- A message buffer used to exercise the compression-pointer byte
`0xC0 0x00`: the name `abc` at offset 0, then at offset 5 the two
pointer bytes followed by 191 `x` bytes and a zero terminator. -/
def c1msg : List Nat := [3, 97, 98, 99, 0, 192, 0] ++ List.replicate 191 120 ++ [0]

set_option maxRecDepth 10000 in
/-- Counterexample to C1: the decoder never follows compression
pointers.  At offset 5 of `c1msg` the length byte `0xC0` (top two bits
`11`) is read as a plain label length of 192, producing a single
192-byte label — not the labels `[abc]` found at the pointed-to offset
0, and not a cursor resuming after the two pointer bytes. -/
theorem c1_pointer_byte_read_as_length_cex :
    parseLabels c1msg = .ok ([⟨3, [97, 98, 99]⟩], List.drop 5 c1msg) ∧
    parseLabels (List.drop 5 c1msg) =
      .ok ([⟨192, 0 :: List.replicate 191 120⟩], []) ∧
    ([⟨192, 0 :: List.replicate 191 120⟩] : List DnsLabel) ≠ [⟨3, [97, 98, 99]⟩] := by
  decide

/-- C1 (amended): when name decoding encounters a length byte whose top
two bits are `11`, it treats it as a plain label length — it consumes
the next `b` bytes as the label's text and continues decoding after
them; no pointer indirection into the message buffer is performed. -/
theorem c1_amended_pointer_byte_is_plain_length (b : Nat) (rest : List Nat)
    (hptr : 192 ≤ b) (hb : b ≤ 255) (hlen : b ≤ rest.length)
    (hutf : validUtf8 (rest.take b) = true) :
    parseLabels (b :: rest) =
      match parseLabels (rest.drop b) with
      | .ok (labels, s2) => .ok ({ length := b, label := rest.take b } :: labels, s2)
      | .error e => .error e := by
  have hne : b ≠ 0 := by omega
  unfold parseLabels
  simp only [List.length_cons, parseLabelsAux]
  rw [if_neg hne, if_pos hlen, if_pos hutf,
    parseLabelsAux_fuel_irrelevant rest.length (rest.drop b).length (rest.drop b)
      (by rw [List.length_drop]; omega) (Nat.le_refl _)]

set_option maxRecDepth 10000 in
/-- Witness for C1 (amended) at the pointer-looking byte `0xC0`. -/
theorem c1_amended_witness :
    parseLabels (192 :: (List.replicate 192 120 ++ [0])) =
      match parseLabels ((List.replicate 192 120 ++ [0]).drop 192) with
      | .ok (labels, s2) =>
          .ok (({ length := 192,
                  label := (List.replicate 192 120 ++ [0]).take 192 } : DnsLabel) :: labels, s2)
      | .error e => .error e :=
  c1_amended_pointer_byte_is_plain_length 192 (List.replicate 192 120 ++ [0])
    (by decide) (by decide) (by decide) (by decide)

/-- Counterexample to C2: the loop in `main` overwrites the decoded
question's qtype/qclass with `A`/`In` before building the answer, so for
a question decoded with `qtype = Mx` the answer's type is `A`, not the
decoded `Mx`; and a single-question request whose opcode is `Status`
(with `qtype = A, qclass = In`) gets `responseCode = NotImplemented`,
not `NoError`. -/
theorem c2_answer_copies_decoded_type_cex :
    ((processQuestion ⟨[⟨3, [97, 98, 99]⟩], QType.Mx, QClass.Ch⟩).2.r_type = QType.A ∧
      QType.A ≠ QType.Mx) ∧
    ((synthesizeReply
        ⟨1, ⟨false, OpCode.Status, false, false, false⟩, ⟨false, 0, RCode.NoError⟩, 1, 0, 0, 0⟩
        [⟨[⟨3, [97, 98, 99]⟩], QType.A, QClass.In⟩]).1.fourth_byte.response_code =
        RCode.NotImplemented ∧
      RCode.NotImplemented ≠ RCode.NoError) := by
  decide

/-- C2 (amended): `synthesizeReply` builds exactly one answer per
decoded question; each answer's name is the question's decoded name,
while the answer's (and the echoed question's) type and class are
forced to `A`/`In` rather than copied, and ttl/rdLength/rdata are the
hardcoded placeholders `60`/`4`/`[45,87,98,65]`.  For a single-question
request with opcode `Query`, `qtype = A` and `qclass = In`, the reply
has one answer, `answerCount = 1`, the answer's name/type/class match
the question's, and `responseCode = NoError`. -/
theorem c2_amended_synthesize_reply_answers :
    (∀ (h : DnsHeader) (qs : List DnsQuestion),
        (synthesizeReply h qs).2.2 =
          qs.map (fun q =>
            { r_name := q.q_name, r_type := QType.A, r_class := QClass.In,
              ttl := 60, rd_length := 4, r_data := [45, 87, 98, 65] }) ∧
        (synthesizeReply h qs).2.1 =
          qs.map (fun q => { q with q_type := QType.A, q_class := QClass.In })) ∧
    (∀ (h : DnsHeader) (q : DnsQuestion),
        h.third_byte.operation_code = OpCode.Query → h.question_count = 1 →
        q.q_type = QType.A → q.q_class = QClass.In →
        (synthesizeReply h [q]).2.2.length = 1 ∧
        (synthesizeReply h [q]).1.answer_record_count = 1 ∧
        (synthesizeReply h [q]).1.fourth_byte.response_code = RCode.NoError ∧
        ∀ a ∈ (synthesizeReply h [q]).2.2,
          a.r_name = q.q_name ∧ a.r_type = q.q_type ∧ a.r_class = q.q_class) := by
  constructor
  · intro hd qs
    exact ⟨rfl, rfl⟩
  · intro hd q hop hqc hty hcl
    obtain ⟨qn, qt, qc⟩ := q
    simp only at hty hcl
    subst hty; subst hcl
    refine ⟨rfl, ?_, ?_, ?_⟩
    · simp [synthesizeReply, replyHeader, hqc]
    · simp [synthesizeReply, replyHeader, hop]
    · intro a ha
      simp only [synthesizeReply, processQuestion, dnsAnswerFromQuestion,
        List.map_cons, List.map_nil, List.mem_singleton] at ha
      subst ha
      exact ⟨rfl, rfl, rfl⟩

/-- Witness for C2 (amended) at a concrete one-question `A`/`In` query. -/
theorem c2_amended_witness :
    (synthesizeReply
        ⟨7, ⟨false, OpCode.Query, false, false, true⟩, ⟨false, 0, RCode.NoError⟩, 1, 0, 0, 0⟩
        [⟨[⟨1, [120]⟩], QType.A, QClass.In⟩]).2.2.length = 1 ∧
    (synthesizeReply
        ⟨7, ⟨false, OpCode.Query, false, false, true⟩, ⟨false, 0, RCode.NoError⟩, 1, 0, 0, 0⟩
        [⟨[⟨1, [120]⟩], QType.A, QClass.In⟩]).1.answer_record_count = 1 ∧
    (synthesizeReply
        ⟨7, ⟨false, OpCode.Query, false, false, true⟩, ⟨false, 0, RCode.NoError⟩, 1, 0, 0, 0⟩
        [⟨[⟨1, [120]⟩], QType.A, QClass.In⟩]).1.fourth_byte.response_code = RCode.NoError ∧
    ∀ a ∈ (synthesizeReply
        ⟨7, ⟨false, OpCode.Query, false, false, true⟩, ⟨false, 0, RCode.NoError⟩, 1, 0, 0, 0⟩
        [⟨[⟨1, [120]⟩], QType.A, QClass.In⟩]).2.2,
      a.r_name = [⟨1, [120]⟩] ∧ a.r_type = QType.A ∧ a.r_class = QClass.In :=
  c2_amended_synthesize_reply_answers.2
    ⟨7, ⟨false, OpCode.Query, false, false, true⟩, ⟨false, 0, RCode.NoError⟩, 1, 0, 0, 0⟩
    ⟨[⟨1, [120]⟩], QType.A, QClass.In⟩ rfl rfl rfl rfl

/-- C7: qtype values `1..=16` and `252..=255` decode to the
corresponding variants (each variant re-encodes to the value it was
decoded from), every other value is the `Invalid QType` error; likewise
qclass values `1..=4` and `255` versus the `Invalid QClass` error. -/
theorem c7_qtype_qclass_tables :
    (∀ t : QType, qTypeTryFrom (qTypeToU16 t) = .ok t) ∧
    (∀ v : Nat, ¬((1 ≤ v ∧ v ≤ 16) ∨ (252 ≤ v ∧ v ≤ 255)) →
        qTypeTryFrom v = .error .invalidQType) ∧
    (∀ v : Nat, (1 ≤ v ∧ v ≤ 16) ∨ (252 ≤ v ∧ v ≤ 255) →
        (qTypeTryFrom v).map qTypeToU16 = .ok v) ∧
    (∀ c : QClass, qClassTryFrom (qClassToU16 c) = .ok c) ∧
    (∀ v : Nat, ¬((1 ≤ v ∧ v ≤ 4) ∨ v = 255) →
        qClassTryFrom v = .error .invalidQClass) ∧
    (∀ v : Nat, (1 ≤ v ∧ v ≤ 4) ∨ v = 255 →
        (qClassTryFrom v).map qClassToU16 = .ok v) := by
  refine ⟨?_, ?_, ?_, ?_, ?_, ?_⟩
  · intro t; cases t <;> rfl
  · intro v hv
    unfold qTypeTryFrom
    rw [if_neg (by omega : ¬v = 1), if_neg (by omega : ¬v = 2), if_neg (by omega : ¬v = 3),
      if_neg (by omega : ¬v = 4), if_neg (by omega : ¬v = 5), if_neg (by omega : ¬v = 6),
      if_neg (by omega : ¬v = 7), if_neg (by omega : ¬v = 8), if_neg (by omega : ¬v = 9),
      if_neg (by omega : ¬v = 10), if_neg (by omega : ¬v = 11), if_neg (by omega : ¬v = 12),
      if_neg (by omega : ¬v = 13), if_neg (by omega : ¬v = 14), if_neg (by omega : ¬v = 15),
      if_neg (by omega : ¬v = 16), if_neg (by omega : ¬v = 252), if_neg (by omega : ¬v = 253),
      if_neg (by omega : ¬v = 254), if_neg (by omega : ¬v = 255)]
  · intro v hv
    rcases hv with ⟨h1, h2⟩ | ⟨h1, h2⟩ <;> interval_cases v <;> rfl
  · intro c; cases c <;> rfl
  · intro v hv
    unfold qClassTryFrom
    rw [if_neg (by omega : ¬v = 1), if_neg (by omega : ¬v = 2), if_neg (by omega : ¬v = 3),
      if_neg (by omega : ¬v = 4), if_neg (by omega : ¬v = 255)]
  · intro v hv
    rcases hv with ⟨h1, h2⟩ | rfl
    · interval_cases v <;> rfl
    · rfl

/-- Witness for C7 at values `15` (Mx), `17` (invalid), `4` (Hs) and
`5` (invalid). -/
theorem c7_witness :
    qTypeTryFrom 15 = .ok QType.Mx ∧
    qTypeTryFrom 17 = .error .invalidQType ∧
    qClassTryFrom 4 = .ok QClass.Hs ∧
    qClassTryFrom 5 = .error .invalidQClass :=
  ⟨c7_qtype_qclass_tables.1 QType.Mx,
   c7_qtype_qclass_tables.2.1 17 (by decide),
   c7_qtype_qclass_tables.2.2.2.1 QClass.Hs,
   c7_qtype_qclass_tables.2.2.2.2.1 5 (by decide)⟩

/-- `Except.bind` on a success passes the value on. -/
theorem except_bind_ok {ε α β : Type} (a : α) (f : α → Except ε β) :
    (Except.ok a >>= f) = f a := rfl

/-- C8: decoding a message whose 12 header bytes claim
`questionCount = 5` from a buffer containing nothing after the header
fails with the `UnexpectedEof` error while reading the questions (the
embedding is a total function, so there is no panic and no
out-of-bounds access). -/
theorem c8_questioncount_eof (hb : List Nat) (h12 : hb.length = 12)
    (h4 : hb.getD 4 0 = 0) (h5 : hb.getD 5 0 = 5) :
    decodeRequest hb = .error .unexpectedEof := by
  have hre : readExact 12 hb = .ok (hb, []) := by
    unfold readExact
    rw [if_pos (by omega)]
    rw [← h12, List.take_length, List.drop_length]
  have hH : dnsHeaderTryFrom hb =
      .ok { packet_id := fromBe2 (hb.getD 0 0) (hb.getD 1 0)
            third_byte := dnsHeaderThirdByteFromU8 (hb.getD 2 0)
            fourth_byte := dnsHeaderFourthByteFromU8 (hb.getD 3 0)
            question_count := fromBe2 (hb.getD 4 0) (hb.getD 5 0)
            answer_record_count := fromBe2 (hb.getD 6 0) (hb.getD 7 0)
            authority_record_count := fromBe2 (hb.getD 8 0) (hb.getD 9 0)
            additional_record_count := fromBe2 (hb.getD 10 0) (hb.getD 11 0) } := by
    unfold dnsHeaderTryFrom
    rw [if_pos h12]
  have hq : fromBe2 (hb.getD 4 0) (hb.getD 5 0) = 5 := by rw [h4, h5]; rfl
  simp only [decodeRequest, hre, except_bind_ok, hH, hq]
  rfl

/-- Witness for C8 at the all-zero header with count bytes `0x00 0x05`. -/
theorem c8_witness :
    decodeRequest [0, 0, 0, 0, 0, 5, 0, 0, 0, 0, 0, 0] = .error .unexpectedEof :=
  c8_questioncount_eof [0, 0, 0, 0, 0, 5, 0, 0, 0, 0, 0, 0]
    (by decide) (by decide) (by decide)

end DnsServer
